import Mathlib

/-!
Verification of the Cash Point Pay management console (`src/main.py`)
against its natural-language specification.

The development shallowly embeds the API-client core of the program:
the endpoint registry (`Config.ENDPOINTS`), the error-code table
(`Config.ERROR_CODES`), the response normalizer
(`CashPointPayAPI.handle_response`), the per-operation request builders,
the item-list total computation of the payment pages, and the
transaction-tracking step of the history page.

Python values appearing in responses are modelled by a small JSON type;
Python exceptions are modelled with `Except`; the Streamlit notification
channel (`st.error`) is modelled as a list of emitted message strings.
-/

namespace CashPointPay

/-- JSON values, as produced by `response.json()` (Python `json.loads`).
Objects are association lists standing for Python dicts, so keys are
assumed distinct and lookup is by key. -/
inductive Json where
  | null : Json
  | bool : Bool → Json
  | num : Int → Json
  | str : String → Json
  | arr : List Json → Json
  | obj : List (String × Json) → Json
deriving Repr

/-- Python dict lookup `d.get(k)` on the field list of a JSON object. -/
def jlookup (fields : List (String × Json)) (k : String) : Option Json :=
  match fields with
  | [] => none
  | (k2, v) :: rest => if k2 = k then some v else jlookup rest k

/-- Python truthiness (`bool(x)`) of a JSON value: `False`, `None`, `0`,
empty string, empty list and empty dict are falsy; everything else truthy. -/
def pyTruthy : Json → Bool
  | .null => false
  | .bool b => b
  | .num n => n != 0
  | .str s => s != ""
  | .arr xs => !xs.isEmpty
  | .obj fs => !fs.isEmpty

mutual
/-- Python `repr()` of a JSON value (string escaping inside reprs is not
modelled; no claim depends on it). -/
def pyRepr : Json → String
  | .null => "None"
  | .bool true => "True"
  | .bool false => "False"
  | .num n => toString n
  | .str s => "\x27" ++ s ++ "\x27"
  | .arr xs => "[" ++ pyReprList xs ++ "]"
  | .obj fs => "\x7b" ++ pyReprFields fs ++ "\x7d"

def pyReprList : List Json → String
  | [] => ""
  | [x] => pyRepr x
  | x :: rest => pyRepr x ++ ", " ++ pyReprList rest

def pyReprFields : List (String × Json) → String
  | [] => ""
  | [(k, v)] => "\x27" ++ k ++ "\x27: " ++ pyRepr v
  | (k, v) :: rest => "\x27" ++ k ++ "\x27: " ++ pyRepr v ++ ", " ++ pyReprFields rest
end

/-- Python `str()` of a JSON value, as used by f-string interpolation. -/
def pyStr (j : Json) : String :=
  match j with
  | .str s => s
  | _ => pyRepr j

/-- An HTTP response as seen by `handle_response`: `body = some j` when the
body is valid JSON parsing to `j` (`response.json()` succeeds), `none` when
it is not valid JSON (`response.json()` raises `json.JSONDecodeError`);
`text` is the raw body text (`response.text`). -/
structure HttpResponse where
  body : Option Json
  text : String

/-- Python exceptions that can escape the client code paths modelled here. -/
inductive PyErr where
  /-- An `AttributeError`: `.get` called on a parsed JSON value that is not a dict. -/
  | attributeError : PyErr
  /-- A transport-layer exception raised by `requests` before any response
  body exists (connection refused, DNS failure, ...). -/
  | transport : String → PyErr
deriving Repr, DecidableEq

/-- The outcome of `handle_response`: the returned value (or the escaping
exception) together with the messages pushed to `st.error`. -/
structure HROut where
  result : Except PyErr Json
  notices : List String
deriving Repr

/-- Embedding of `CashPointPayAPI.handle_response` (src/main.py:135-151).

```
try:
    data = response.json()
    if not data.get("isSuccess", False):
        st.error of "APIエラー: " plus data.get of errorMsg, default 不明なエラー
    return data
except json.JSONDecodeError:
    st.error(f"応答の解析に失敗しました: {response.text}")
    return {"isSuccess": False, "errorMsg": "応答の解析に失敗しました"}
```

A body that is not valid JSON makes `response.json()` raise
`json.JSONDecodeError`, which is caught. A body parsing to a non-dict JSON
value makes `data.get` raise `AttributeError`, which is not caught. -/
def handle_response (response : HttpResponse) : HROut :=
  match response.body with
  | none =>
      { result := .ok (.obj [("isSuccess", .bool false),
                             ("errorMsg", .str "応答の解析に失敗しました")]),
        notices := ["応答の解析に失敗しました: " ++ response.text] }
  | some data =>
      match data with
      | .obj fields =>
          if pyTruthy ((jlookup fields "isSuccess").getD (.bool false)) then
            { result := .ok (.obj fields), notices := [] }
          else
            { result := .ok (.obj fields),
              notices := ["APIエラー: " ++
                pyStr ((jlookup fields "errorMsg").getD (.str "不明なエラー"))] }
      | _ => { result := .error .attributeError, notices := [] }

/-- A client method body, `response = self.session.post(url, ...)` followed by
`return self.handle_response(response)`: the transport step either raises (the
exception propagates, no handler exists in any method) or yields a response
that is passed to `handle_response`. -/
def run_call (transport : Except String HttpResponse) : HROut :=
  match transport with
  | .error e => { result := .error (.transport e), notices := [] }
  | .ok response => handle_response response

namespace Config

/-- Embedding of `Config.ENDPOINTS` (src/main.py:33-84): the static registry
from symbolic operation names to URL paths. -/
def ENDPOINTS : List (String × String) :=
  [("login", "/api/login"),
   ("logout", "/api/logOut"),
   ("pay", "/api/pay"),
   ("payment", "/api/payment"),
   ("pos_pay", "/api/POS/pay"),
   ("pos_payment", "/api/POS/payment"),
   ("query", "/api/query"),
   ("machine_info", "/api/machineInfo"),
   ("door_control", "/api/doorControl"),
   ("cash_info", "/api/cashInfo"),
   ("cash_detail_info", "/api/cashDetailInfo"),
   ("refill", "/api/refill"),
   ("refill_end", "/api/refillend"),
   ("refund", "/api/refund"),
   ("withdraw", "/api/withdraw"),
   ("cancel", "/api/cancel"),
   ("payment_stop", "/api/paymentStop"),
   ("payment_continue", "/api/paymentContinue"),
   ("sensor_status", "/api/sensorStatus"),
   ("cassette_status", "/api/cassetteStatus"),
   ("get_status", "/api/getStatus"),
   ("reset_status", "/api/resetStatus"),
   ("get_error_message", "/api/getErrorMessage"),
   ("pd_calibration", "/api/pdCalibration"),
   ("reset_cassette", "/api/resetCassette"),
   ("reset_coin_box", "/api/resetCoinBox"),
   ("drum_to_cassette", "/api/drumToCassette"),
   ("self_test", "/api/selfTest"),
   ("clear_hopper", "/api/clearHopper"),
   ("banknote_denomination_setup_get", "/api/banknoteDenominationSetup"),
   ("banknote_denomination_setup_post", "/api/banknoteDenominationSetup"),
   ("coin_tube_setup_get", "/api/coinTubeSetup"),
   ("coin_tube_setup_post", "/api/coinTubeSetup"),
   ("set_device_setting", "/api/setDeviceSetting"),
   ("setup_setting", "/api/setupSetting")]

/-- Embedding of `Config.ERROR_CODES` (src/main.py:87-106): the error-code
lookup table, exactly the entries present in the source. -/
def ERROR_CODES : List (Int × String) :=
  [(400, "アカウントまたはパスワードが間違っています"),
   (401, "まだログインしていません"),
   (500, "不明なエラーが発生しました"),
   (501, "無効なフォーマットです"),
   (502, "ホームページに変更してください"),
   (503, "UUIDが存在しません"),
   (504, "このAPIはRechargeではありません"),
   (505, "モーターが実行中です。後でもう一度お試しください"),
   (506, "在庫不足"),
   (507, "取引処理中ではありません！"),
   (508, "紙幣モジュールの準備ができていません。後でもう一度お試しください"),
   (509, "drumId>=1かつdrumId<=4かつpcs >= 1"),
   (510, "ドラム内の紙幣の数が0であり、アクションを完了するのに十分ではありません"),
   (511, "設定が進行中です。設定をキャンセルしてください"),
   (512, "トランザクションが進行中です。トランザクションをキャンセルまたは停止してください！"),
   (513, "金額は0より大きくなければなりません"),
   (514, "硬貨モジュールの準備ができていません。後でもう一度お試しください"),
   (515, "他のAPIが現在使用中です")]

end Config

/-- Lookup `Config.ENDPOINTS[name]`: dict indexing on the registry. Every name used
by a client method is present, so the `""` default of `getD` is never hit. -/
def endpointPath (name : String) : String :=
  (Config.ENDPOINTS.lookup name).getD ""

/-- Embedding of `CashPointPayAPI.make_url` (src/main.py:124-133): plain
string concatenation of the base URL and the endpoint path. -/
def make_url (base_url endpoint : String) : String :=
  base_url ++ endpoint

/-- HTTP verb of a request issued via `self.session`. -/
inductive Verb where
  | GET : Verb
  | POST : Verb
deriving Repr, DecidableEq

/-- The single HTTP request a client method issues: verb, full URL, and the
JSON body passed as `json=...` (`none` when the method posts without a body). -/
structure Request where
  verb : Verb
  url : String
  body : Option Json
deriving Repr

/-- Python dict merge `{**d1, k1: v1, ...}`: keys of `d1` keep their position
(values overridden by `d2` where present), new keys of `d2` are appended. -/
def pyMerge (d1 d2 : List (String × Json)) : List (String × Json) :=
  d1.map (fun p => (p.1, ((jlookup d2 p.1).getD p.2))) ++
    d2.filter (fun p => (jlookup d1 p.1).isNone)

/-- The keys of a request body: the keys of a JSON-object body, `[]` for a
missing body or a non-object (list) body. -/
def bodyKeys (r : Request) : List String :=
  match r.body with
  | some (.obj fields) => fields.map Prod.fst
  | _ => []

/-- The `CashPointPayAPI.login` request (src/main.py:155-168). -/
def login_request (base account password : String) : Request :=
  ⟨.POST, make_url base (endpointPath "login"),
   some (.obj [("account", .str account), ("password", .str password)])⟩

/-- The `CashPointPayAPI.logout` request (src/main.py:170-178). -/
def logout_request (base : String) : Request :=
  ⟨.GET, make_url base (endpointPath "logout"), none⟩

/-- The `CashPointPayAPI.pay` request (src/main.py:182-194). -/
def pay_request (base : String) (items : List Json) : Request :=
  ⟨.POST, make_url base (endpointPath "pay"), some (.obj [("items", .arr items)])⟩

/-- The `CashPointPayAPI.payment` request (src/main.py:196-208). -/
def payment_request (base amount : String) : Request :=
  ⟨.POST, make_url base (endpointPath "payment"),
   some (.obj [("amount", .str amount)])⟩

/-- The `CashPointPayAPI.pos_pay` request (src/main.py:210-223). -/
def pos_pay_request (base : String) (items : List Json)
    (pos_reference_number : String) : Request :=
  ⟨.POST, make_url base (endpointPath "pos_pay"),
   some (.obj [("items", .arr items),
               ("POS_reference_number", .str pos_reference_number)])⟩

/-- The `CashPointPayAPI.pos_payment` request (src/main.py:225-238). -/
def pos_payment_request (base amount pos_reference_number : String) : Request :=
  ⟨.POST, make_url base (endpointPath "pos_payment"),
   some (.obj [("amount", .str amount),
               ("POS_reference_number", .str pos_reference_number)])⟩

/-- The `CashPointPayAPI.query` request (src/main.py:240-252). -/
def query_request (base uuid : String) : Request :=
  ⟨.POST, make_url base (endpointPath "query"), some (.obj [("uuid", .str uuid)])⟩

/-- The `CashPointPayAPI.get_machine_info` request (src/main.py:256-264). -/
def get_machine_info_request (base : String) : Request :=
  ⟨.GET, make_url base (endpointPath "machine_info"), none⟩

/-- The `CashPointPayAPI.door_control` request (src/main.py:266-279): the body is
the door-settings dict merged with the `"Open Timeout"` key. -/
def door_control_request (base : String) (door_settings : List (String × Json))
    (timeout : Int) : Request :=
  ⟨.POST, make_url base (endpointPath "door_control"),
   some (.obj (pyMerge door_settings [("Open Timeout", .num timeout)]))⟩

/-- The `CashPointPayAPI.get_cash_info` request (src/main.py:283-291). -/
def get_cash_info_request (base : String) : Request :=
  ⟨.GET, make_url base (endpointPath "cash_info"), none⟩

/-- The `CashPointPayAPI.get_cash_detail_info` request (src/main.py:293-305). -/
def get_cash_detail_info_request (base name : String) : Request :=
  ⟨.POST, make_url base (endpointPath "cash_detail_info"),
   some (.obj [("name", .str name)])⟩

/-- The `CashPointPayAPI.refill` request (src/main.py:307-315). -/
def refill_request (base : String) : Request :=
  ⟨.POST, make_url base (endpointPath "refill"), none⟩

/-- The `CashPointPayAPI.refill_end` request (src/main.py:317-325). -/
def refill_end_request (base : String) : Request :=
  ⟨.POST, make_url base (endpointPath "refill_end"), none⟩

/-- The `CashPointPayAPI.refund` request (src/main.py:327-339). -/
def refund_request (base amount : String) : Request :=
  ⟨.POST, make_url base (endpointPath "refund"),
   some (.obj [("amount", .str amount)])⟩

/-- The `CashPointPayAPI.withdraw` request (src/main.py:341-353). -/
def withdraw_request (base : String) (withdraw_items : List Json) : Request :=
  ⟨.POST, make_url base (endpointPath "withdraw"),
   some (.obj [("withdraw", .arr withdraw_items)])⟩

/-- The `CashPointPayAPI.cancel` request (src/main.py:357-365). -/
def cancel_request (base : String) : Request :=
  ⟨.POST, make_url base (endpointPath "cancel"), none⟩

/-- The `CashPointPayAPI.payment_stop` request (src/main.py:367-375). -/
def payment_stop_request (base : String) : Request :=
  ⟨.POST, make_url base (endpointPath "payment_stop"), none⟩

/-- The `CashPointPayAPI.payment_continue` request (src/main.py:377-385). -/
def payment_continue_request (base : String) : Request :=
  ⟨.POST, make_url base (endpointPath "payment_continue"), none⟩

/-- The `CashPointPayAPI.get_sensor_status` request (src/main.py:389-397). -/
def get_sensor_status_request (base : String) : Request :=
  ⟨.GET, make_url base (endpointPath "sensor_status"), none⟩

/-- The `CashPointPayAPI.get_cassette_status` request (src/main.py:399-407). -/
def get_cassette_status_request (base : String) : Request :=
  ⟨.GET, make_url base (endpointPath "cassette_status"), none⟩

/-- The `CashPointPayAPI.get_status` request (src/main.py:409-417). -/
def get_status_request (base : String) : Request :=
  ⟨.GET, make_url base (endpointPath "get_status"), none⟩

/-- The `CashPointPayAPI.reset_status` request (src/main.py:419-427). -/
def reset_status_request (base : String) : Request :=
  ⟨.GET, make_url base (endpointPath "reset_status"), none⟩

/-- The `CashPointPayAPI.get_error_message` request (src/main.py:429-441). -/
def get_error_message_request (base error_code : String) : Request :=
  ⟨.POST, make_url base (endpointPath "get_error_message"),
   some (.obj [("errorCode", .str error_code)])⟩

/-- The `CashPointPayAPI.pd_calibration` request (src/main.py:445-453). -/
def pd_calibration_request (base : String) : Request :=
  ⟨.POST, make_url base (endpointPath "pd_calibration"), none⟩

/-- The `CashPointPayAPI.reset_cassette` request (src/main.py:455-463). -/
def reset_cassette_request (base : String) : Request :=
  ⟨.POST, make_url base (endpointPath "reset_cassette"), none⟩

/-- The `CashPointPayAPI.reset_coin_box` request (src/main.py:465-473). -/
def reset_coin_box_request (base : String) : Request :=
  ⟨.POST, make_url base (endpointPath "reset_coin_box"), none⟩

/-- The `CashPointPayAPI.drum_to_cassette` request (src/main.py:475-488): the
arguments are serialized into the body as given, with no range check. -/
def drum_to_cassette_request (base : String) (drum_id pcs : Int) : Request :=
  ⟨.POST, make_url base (endpointPath "drum_to_cassette"),
   some (.obj [("drumId", .num drum_id), ("pcs", .num pcs)])⟩

/-- The `CashPointPayAPI.self_test` request (src/main.py:490-498): issued with
`self.session.get(url)`. -/
def self_test_request (base : String) : Request :=
  ⟨.GET, make_url base (endpointPath "self_test"), none⟩

/-- The `CashPointPayAPI.clear_hopper` request (src/main.py:500-512). -/
def clear_hopper_request (base : String) (hopper_id : Int) : Request :=
  ⟨.POST, make_url base (endpointPath "clear_hopper"),
   some (.obj [("hopperId", .num hopper_id)])⟩

/-- The `CashPointPayAPI.get_banknote_denomination_setup` request
(src/main.py:516-524). -/
def get_banknote_denomination_setup_request (base : String) : Request :=
  ⟨.GET, make_url base (endpointPath "banknote_denomination_setup_get"), none⟩

/-- The `CashPointPayAPI.set_banknote_denomination_setup` request
(src/main.py:526-537): the settings list is the body directly. -/
def set_banknote_denomination_setup_request (base : String)
    (settings : List Json) : Request :=
  ⟨.POST, make_url base (endpointPath "banknote_denomination_setup_post"),
   some (.arr settings)⟩

/-- The `CashPointPayAPI.get_coin_tube_setup` request (src/main.py:539-547). -/
def get_coin_tube_setup_request (base : String) : Request :=
  ⟨.GET, make_url base (endpointPath "coin_tube_setup_get"), none⟩

/-- The `CashPointPayAPI.set_coin_tube_setup` request (src/main.py:549-560): the
settings list is the body directly. -/
def set_coin_tube_setup_request (base : String) (settings : List Json) : Request :=
  ⟨.POST, make_url base (endpointPath "coin_tube_setup_post"),
   some (.arr settings)⟩

/-- The `CashPointPayAPI.set_device_setting` request (src/main.py:562-575). -/
def set_device_setting_request (base device_id url : String) : Request :=
  ⟨.POST, make_url base (endpointPath "set_device_setting"),
   some (.obj [("deviceId", .str device_id), ("url", .str url)])⟩

/-- The `CashPointPayAPI.setup_setting` request (src/main.py:577-590). -/
def setup_setting_request (base name : String) (value : Int) : Request :=
  ⟨.POST, make_url base (endpointPath "setup_setting"),
   some (.obj [("name", .str name), ("value", .num value)])⟩

/-- A row of the §4.3 contract table of the spec: operation (keyed by the
registry name the method uses), documented verb, documented JSON body keys. -/
structure SpecRow where
  op : String
  verb : Verb
  keys : List String
deriving Repr, DecidableEq

/-- The §4.3 contract table, written from the words of the spec (the spec-side
definition of the refinement comparison). Rows whose body is not a fixed key
list — `door_control` ("door_states merged with Open Timeout") and the two
settings posts ("list body directly") — are stated separately in the C5
theorems. -/
def spec_contract_table : List SpecRow :=
  [⟨"login", .POST, ["account", "password"]⟩,
   ⟨"logout", .GET, []⟩,
   ⟨"pay", .POST, ["items"]⟩,
   ⟨"payment", .POST, ["amount"]⟩,
   ⟨"pos_pay", .POST, ["items", "POS_reference_number"]⟩,
   ⟨"pos_payment", .POST, ["amount", "POS_reference_number"]⟩,
   ⟨"query", .POST, ["uuid"]⟩,
   ⟨"machine_info", .GET, []⟩,
   ⟨"cash_info", .GET, []⟩,
   ⟨"cash_detail_info", .POST, ["name"]⟩,
   ⟨"refill", .POST, []⟩,
   ⟨"refill_end", .POST, []⟩,
   ⟨"refund", .POST, ["amount"]⟩,
   ⟨"withdraw", .POST, ["withdraw"]⟩,
   ⟨"cancel", .POST, []⟩,
   ⟨"payment_stop", .POST, []⟩,
   ⟨"payment_continue", .POST, []⟩,
   ⟨"sensor_status", .GET, []⟩,
   ⟨"cassette_status", .GET, []⟩,
   ⟨"get_status", .GET, []⟩,
   ⟨"reset_status", .GET, []⟩,
   ⟨"get_error_message", .POST, ["errorCode"]⟩,
   ⟨"pd_calibration", .POST, []⟩,
   ⟨"reset_cassette", .POST, []⟩,
   ⟨"reset_coin_box", .POST, []⟩,
   ⟨"self_test", .POST, []⟩,
   ⟨"clear_hopper", .POST, ["hopperId"]⟩,
   ⟨"drum_to_cassette", .POST, ["drumId", "pcs"]⟩,
   ⟨"banknote_denomination_setup_get", .GET, []⟩,
   ⟨"coin_tube_setup_get", .GET, []⟩,
   ⟨"set_device_setting", .POST, ["deviceId", "url"]⟩,
   ⟨"setup_setting", .POST, ["name", "value"]⟩]

/-- Verb the §4.3 table documents for an operation. -/
def specVerbOf (op : String) : Option Verb :=
  (spec_contract_table.find? (fun row => row.op = op)).map SpecRow.verb

/-- Body keys the §4.3 table documents for an operation. -/
def specKeysOf (op : String) : Option (List String) :=
  (spec_contract_table.find? (fun row => row.op = op)).map SpecRow.keys

/-- A request agrees with the §4.3 table for operation `op`: its URL is the
base URL concatenated with the registered path, and its verb and body keys
are the documented ones. -/
def reqSpecOk (r : Request) (base op : String) : Prop :=
  r.url = make_url base (endpointPath op) ∧
  some r.verb = specVerbOf op ∧
  some (bodyKeys r) = specKeysOf op

/-- A line item of the item-list payment forms: three text-input fields, kept
as strings in session state (src/main.py:1004-1036). -/
structure Item where
  name : String
  pcs : String
  price : String
deriving Repr, DecidableEq

/-- ASCII decimal digit 0-9 (code points 48-57). -/
def isDigitChar (c : Char) : Bool :=
  48 ≤ c.toNat && c.toNat ≤ 57

/-- ASCII whitespace stripped by Python `int`: space, tab, newline, carriage
return, vertical tab, form feed. -/
def isPySpace (c : Char) : Bool :=
  c.toNat = 32 || c.toNat = 9 || c.toNat = 10 || c.toNat = 13 ||
    c.toNat = 11 || c.toNat = 12

/-- Python `str.isdigit` on the ASCII fragment: non-empty and every character
in 0-9. (Python also accepts some non-ASCII digit characters; no input in
this development uses them.) -/
def str_isdigit (s : String) : Bool :=
  !s.data.isEmpty && s.data.all isDigitChar

/-- Value of a digit string. -/
def digitsVal (cs : List Char) : Nat :=
  cs.foldl (fun n c => n * 10 + (c.toNat - 48)) 0

/-- Strip leading and trailing whitespace. -/
def trimChars (cs : List Char) : List Char :=
  ((cs.dropWhile isPySpace).reverse.dropWhile isPySpace).reverse

/-- Parse a non-empty all-digits character list, `none` otherwise. -/
def parseDigits (cs : List Char) : Option Nat :=
  if !cs.isEmpty && cs.all isDigitChar then some (digitsVal cs) else none

/-- Python `int(s)` on the ASCII fragment, `none` when `int` raises
`ValueError`: an all-digits string is its value; otherwise the string is
stripped of surrounding whitespace and must be an optional sign followed by
at least one digit. -/
def py_int (s : String) : Option Int :=
  if str_isdigit s then some ((digitsVal s.data : Nat) : Int)
  else
    let t := trimChars s.data
    if t.head? = some (Char.ofNat 45) then
      (parseDigits (t.drop 1)).map (fun n => -(n : Int))
    else if t.head? = some (Char.ofNat 43) then
      (parseDigits (t.drop 1)).map (fun n => (n : Int))
    else (parseDigits t).map (fun n => (n : Int))

/-- The presence check applied before submission (src/main.py:1047):
`item["name"] and item["pcs"] and item["price"]` — all three strings
non-empty. -/
def presence_ok (it : Item) : Bool :=
  it.name != "" && it.pcs != "" && it.price != ""

/-- Embedding of the displayed-total computation (src/main.py:1039-1043 and,
identically, 1126-1130):

```
sum(int(item["pcs"]) * int(item.get("price", 0))
    for item in st.session_state.items
    if item.get("price", "").isdigit())
```

Items whose price is not an all-digits string are skipped by the filter; for
the remaining items `int(item["pcs"])` is evaluated with no guard, so a
non-integer quantity string raises `ValueError` (modelled as `.error`). -/
def compute_total : List Item → Except String Int
  | [] => .ok 0
  | it :: rest =>
      if str_isdigit it.price then
        match py_int it.pcs with
        | none => .error ("invalid literal for int() with base 10: " ++ it.pcs)
        | some pq =>
            match py_int it.price with
            | none =>
                .error ("invalid literal for int() with base 10: " ++ it.price)
            | some pr =>
                match compute_total rest with
                | .error e => .error e
                | .ok t => .ok (pq * pr + t)
      else compute_total rest

/-- The total the spec describes, over the items the code actually sums: the
sum of quantity times unit price over the items whose price is an all-digits
string. -/
def displayed_total (items : List Item) : Int :=
  ((items.filter (fun it => str_isdigit it.price)).map
    (fun it => ((py_int it.pcs).getD 0) * ((py_int it.price).getD 0))).sum

/-- A record of the in-memory transaction history
(src/main.py:2138-2145). -/
structure TransactionRecord where
  uuid : String
  timestamp : String
  status : Json
  amount : Json
  change : Json
  data : Json
deriving Repr

/-- Embedding of the body of the 追跡 (track) button of
`UI._render_transaction_tracking` (src/main.py:2129-2154), parameterized by
the text-input value, the current timestamp string, and the outcome of
`api.query` (an exception, or the envelope `handle_response` returned).
Returns the new history list together with a flag telling whether an API
query was issued; a Python exception escaping the handler leaves the history
untouched.

The source: an empty uuid or one already among
`[t.get("uuid") for t in st.session_state.transaction_history]` issues no
query and appends nothing; otherwise `api.query` runs and, on a truthy
`isSuccess`, a record built from `data`/`data.info` is appended (`.get` on a
non-dict value raises `AttributeError`). -/
def track_step (history : List TransactionRecord)
    (transaction_uuid now : String) (query_result : Except PyErr Json) :
    Except PyErr (List TransactionRecord × Bool) :=
  if transaction_uuid = "" then .ok (history, false)
  else if (history.map (fun t => t.uuid)).contains transaction_uuid then
    .ok (history, false)
  else
    match query_result with
    | .error e => .error e
    | .ok response =>
        match response with
        | .obj rfields =>
            if pyTruthy ((jlookup rfields "isSuccess").getD (.bool false)) then
              match (jlookup rfields "data").getD (.obj []) with
              | .obj dfields =>
                  match (jlookup dfields "info").getD (.obj []) with
                  | .obj ifields =>
                      .ok (history ++
                        [{ uuid := transaction_uuid,
                           timestamp := now,
                           status := (jlookup ifields "status").getD
                             (.str "不明"),
                           amount := (jlookup ifields "pay_amount").getD
                             (.num 0),
                           change := (jlookup ifields "change").getD (.num 0),
                           data := .obj dfields }], true)
                  | _ => .error .attributeError
              | _ => .error .attributeError
            else .ok (history, true)
        | _ => .error .attributeError

/-- One tracking action as it affects the stored history: on an escaping
exception the append was never reached, so the history is unchanged. -/
def track_apply (history : List TransactionRecord)
    (a : String × String × Except PyErr Json) : List TransactionRecord :=
  match track_step history a.1 a.2.1 a.2.2 with
  | .ok (h2, _) => h2
  | .error _ => history

/-- The history produced by a sequence of tracking actions starting from the
initial empty `st.session_state.transaction_history`. -/
def run_tracking (actions : List (String × String × Except PyErr Json)) :
    List TransactionRecord :=
  actions.foldl track_apply []

/-- The code-509 error envelope documented for invalid drum parameters. -/
def code509_envelope : Json :=
  .obj [("isSuccess", .bool false), ("code", .num 509),
        ("errorMsg", .str "drumId>=1かつdrumId<=4かつpcs >= 1")]
theorem jlookup_mem_keys (d : List (String × Json)) (k : String) (v : Json)
    (h : jlookup d k = some v) : k ∈ d.map Prod.fst := by
  induction d with
  | nil => simp [jlookup] at h
  | cons p rest ih =>
      obtain ⟨k2, v2⟩ := p
      by_cases hk : k2 = k
      · simp [hk]
      · simp only [jlookup, if_neg hk] at h
        simpa using Or.inr (ih h)

theorem mem_keys_pyMerge_left (d1 d2 : List (String × Json)) (k : String)
    (h : k ∈ d1.map Prod.fst) : k ∈ (pyMerge d1 d2).map Prod.fst := by
  simp only [pyMerge, List.map_append, List.mem_append, List.map_map]
  left
  simpa using h

theorem mem_keys_pyMerge_right (d1 : List (String × Json)) (k : String)
    (v : Json) : k ∈ (pyMerge d1 [(k, v)]).map Prod.fst := by
  cases h : jlookup d1 k with
  | none =>
      simp only [pyMerge, List.map_append, List.mem_append]
      right
      simp [jlookup, h]
  | some v2 =>
      exact mem_keys_pyMerge_left d1 _ k (jlookup_mem_keys d1 k v2 h)

theorem py_int_isSome_of_isdigit (s : String) (h : str_isdigit s = true) :
    (py_int s).isSome = true := by
  simp [py_int, h]

theorem track_step_ok_shape (history : List TransactionRecord)
    (u now : String) (qr : Except PyErr Json)
    (h2 : List TransactionRecord) (q : Bool)
    (hstep : track_step history u now qr = .ok (h2, q)) :
    h2 = history ∨
    ((history.map (fun t => t.uuid)).contains u = false ∧
      ∃ rec : TransactionRecord, h2 = history ++ [rec] ∧ rec.uuid = u) := by
  unfold track_step at hstep
  split at hstep
  · simp only [Except.ok.injEq, Prod.mk.injEq] at hstep
    exact Or.inl hstep.1.symm
  · split at hstep
    · simp only [Except.ok.injEq, Prod.mk.injEq] at hstep
      exact Or.inl hstep.1.symm
    next hcont =>
      split at hstep
      · exact absurd hstep (by simp)
      · split at hstep
        · split at hstep
          · split at hstep
            · split at hstep
              · simp only [Except.ok.injEq, Prod.mk.injEq] at hstep
                exact Or.inr ⟨by simpa using hcont, _, hstep.1.symm, rfl⟩
              · exact absurd hstep (by simp)
            · exact absurd hstep (by simp)
          · simp only [Except.ok.injEq, Prod.mk.injEq] at hstep
            exact Or.inl hstep.1.symm
        · exact absurd hstep (by simp)

theorem track_step_already_tracked (history : List TransactionRecord)
    (u now : String) (qr : Except PyErr Json)
    (h : (history.map (fun t => t.uuid)).contains u = true) :
    track_step history u now qr = .ok (history, false) := by
  unfold track_step
  split
  · rfl
  · simp [h]

theorem track_apply_nodup (history : List TransactionRecord)
    (a : String × String × Except PyErr Json)
    (hnd : (history.map (fun t => t.uuid)).Nodup) :
    ((track_apply history a).map (fun t => t.uuid)).Nodup := by
  unfold track_apply
  cases hstep : track_step history a.1 a.2.1 a.2.2 with
  | error e => exact hnd
  | ok p =>
      obtain ⟨h2, q⟩ := p
      rcases track_step_ok_shape _ _ _ _ _ _ hstep with heq | ⟨hcont, rec, heq, hu⟩
      · simpa [heq] using hnd
      · have hnm : a.1 ∉ history.map (fun t => t.uuid) := by simpa using hcont
        subst heq
        simp only [List.map_append, List.map_cons, List.map_nil]
        rw [List.nodup_append]
        exact ⟨hnd, List.nodup_singleton _,
          fun x hx => by simp [hu]; rintro rfl; exact hnm hx⟩

theorem run_tracking_nodup_from (actions : List (String × String × Except PyErr Json))
    (history : List TransactionRecord)
    (hnd : (history.map (fun t => t.uuid)).Nodup) :
    (((actions.foldl track_apply history)).map (fun t => t.uuid)).Nodup := by
  induction actions generalizing history with
  | nil => exact hnd
  | cons a rest ih => exact ih _ (track_apply_nodup _ _ hnd)

end CashPointPay

namespace CashPointPay

/-- C1: for every HTTP response whose body is not valid JSON,
`handle_response` returns (does not raise) an envelope with `isSuccess` false
and the fixed non-empty `errorMsg` "応答の解析に失敗しました". -/
theorem C1_parse_failure_normalized (text : String) :
    (handle_response ⟨none, text⟩).result =
      .ok (.obj [("isSuccess", .bool false),
                 ("errorMsg", .str "応答の解析に失敗しました")]) ∧
    "応答の解析に失敗しました" ≠ "" := by
  exact ⟨rfl, by decide⟩

/-- C2: for every response whose body parses as a JSON object with a truthy
`isSuccess`, `handle_response` — and hence the client method calling it —
returns the parsed structure unchanged (so its `data` field, looked up in the
returned value, is exactly the server-sent one). -/
theorem C2_success_passthrough (fields : List (String × Json)) (text : String)
    (h : pyTruthy ((jlookup fields "isSuccess").getD (.bool false)) = true) :
    (handle_response ⟨some (.obj fields), text⟩).result = .ok (.obj fields) ∧
    (run_call (.ok ⟨some (.obj fields), text⟩)).result = .ok (.obj fields) ∧
    ∀ env, (handle_response ⟨some (.obj fields), text⟩).result = .ok env →
      env = .obj fields := by
  refine ⟨?_, ?_, ?_⟩ <;> simp [run_call, handle_response, h]

theorem C2_success_passthrough_witness :
    pyTruthy ((jlookup [("isSuccess", .bool true), ("data", .str "x")]
        "isSuccess").getD (.bool false)) = true ∧
    (handle_response ⟨some (.obj [("isSuccess", .bool true),
        ("data", .str "x")]), "t"⟩).result =
      .ok (.obj [("isSuccess", .bool true), ("data", .str "x")]) :=
  ⟨by decide, (C2_success_passthrough
      [("isSuccess", Json.bool true), ("data", Json.str "x")] "t" (by decide)).1⟩

/-- C3 counterexample: a body parsing as `{"isSuccess": false}` (falsy
`isSuccess`, no `errorMsg` from the server) is returned unchanged, so the
returned envelope contains no `errorMsg` at all — the generic default message
goes only to the `st.error` notification channel, contradicting the claim
that the returned envelope always contains an `errorMsg`. -/
theorem C3_counterexample :
    (handle_response ⟨some (.obj [("isSuccess", .bool false)]), "t"⟩).result =
      .ok (.obj [("isSuccess", .bool false)]) ∧
    jlookup [("isSuccess", Json.bool false)] "errorMsg" = none ∧
    (handle_response ⟨some (.obj [("isSuccess", .bool false)]), "t"⟩).notices =
      ["APIエラー: 不明なエラー"] := by
  exact ⟨rfl, rfl, rfl⟩

/-- C3 amended: for every response whose body parses as a JSON object with a
falsy or absent `isSuccess`, the client *displays* an error message — the
server-provided `errorMsg`, or the generic default "不明なエラー" when absent —
on the notification channel, while the returned envelope is the parsed
structure unchanged (so it contains an `errorMsg` only when the server sent
one). -/
theorem C3_error_message_surfaced (fields : List (String × Json)) (text : String)
    (h : pyTruthy ((jlookup fields "isSuccess").getD (.bool false)) = false) :
    handle_response ⟨some (.obj fields), text⟩ =
      { result := .ok (.obj fields),
        notices := ["APIエラー: " ++
          pyStr ((jlookup fields "errorMsg").getD (.str "不明なエラー"))] } := by
  simp [handle_response, h]

theorem C3_error_message_surfaced_witness :
    pyTruthy ((jlookup [("isSuccess", .bool false)] "isSuccess").getD
        (.bool false)) = false ∧
    handle_response ⟨some (.obj [("isSuccess", .bool false)]), "t"⟩ =
      { result := .ok (.obj [("isSuccess", .bool false)]),
        notices := ["APIエラー: " ++
          pyStr ((jlookup [("isSuccess", Json.bool false)] "errorMsg").getD
            (.str "不明なエラー"))] } :=
  ⟨by decide, C3_error_message_surfaced [("isSuccess", Json.bool false)] "t"
    (by decide)⟩

/-- C4: a domain/business failure — a body parsing as a JSON object with a
falsy `isSuccess` and a server-provided `errorMsg` — is returned by the client
unchanged: the envelope, its `errorMsg` included, is never reinterpreted or
altered locally. -/
theorem C4_domain_failure_passthrough (fields : List (String × Json))
    (text : String) (msg : Json)
    (h : pyTruthy ((jlookup fields "isSuccess").getD (.bool false)) = false)
    (_hmsg : jlookup fields "errorMsg" = some msg) :
    (handle_response ⟨some (.obj fields), text⟩).result = .ok (.obj fields) ∧
    (run_call (.ok ⟨some (.obj fields), text⟩)).result = .ok (.obj fields) := by
  constructor <;> simp [run_call, handle_response, h]

theorem C4_domain_failure_passthrough_witness :
    pyTruthy ((jlookup [("isSuccess", .bool false), ("errorMsg", .str "在庫不足")]
        "isSuccess").getD (.bool false)) = false ∧
    jlookup [("isSuccess", Json.bool false), ("errorMsg", Json.str "在庫不足")]
        "errorMsg" = some (.str "在庫不足") ∧
    (handle_response ⟨some (.obj [("isSuccess", .bool false),
        ("errorMsg", .str "在庫不足")]), "t"⟩).result =
      .ok (.obj [("isSuccess", .bool false), ("errorMsg", .str "在庫不足")]) :=
  ⟨by decide, rfl, (C4_domain_failure_passthrough
      [("isSuccess", Json.bool false), ("errorMsg", Json.str "在庫不足")] "t"
      (.str "在庫不足") (by decide) rfl).1⟩

/-- C5 counterexample: the §4.3 table documents `self_test` as POST, but the
client method issues its one request with `self.session.get`, so the verb of
the built request differs from the documented one. -/
theorem C5_counterexample :
    (self_test_request "http://localhost:8080").verb = .GET ∧
    specVerbOf "self_test" = some .POST ∧
    ¬ some (self_test_request "http://localhost:8080").verb =
        specVerbOf "self_test" := by
  refine ⟨rfl, rfl, ?_⟩
  decide

/-- C5 amended: every operation of the §4.3 contract table issues exactly one
HTTP request whose URL is the base URL concatenated with the path registered
for it in the endpoint registry, with the documented verb and JSON body keys —
except `self_test`, which issues GET where the table documents POST. The
`door_control` body is the door-settings dict merged with the `"Open Timeout"`
key, and the two settings posts send the settings list as the body directly,
as documented. -/
theorem C5_requests_match_contract
    (base account password amount pos uuid name ec dev durl nm : String)
    (items witems bsettings csettings : List Json)
    (d p hop v t : Int)
    (door_settings : List (String × Json)) :
    ((door_control_request base door_settings t).url =
        make_url base (endpointPath "door_control") ∧
      (door_control_request base door_settings t).verb = .POST ∧
      "Open Timeout" ∈ bodyKeys (door_control_request base door_settings t) ∧
      ∀ k ∈ door_settings.map Prod.fst,
        k ∈ bodyKeys (door_control_request base door_settings t)) ∧
    reqSpecOk (login_request base account password) base "login" ∧
    reqSpecOk (logout_request base) base "logout" ∧
    reqSpecOk (pay_request base items) base "pay" ∧
    reqSpecOk (payment_request base amount) base "payment" ∧
    reqSpecOk (pos_pay_request base items pos) base "pos_pay" ∧
    reqSpecOk (pos_payment_request base amount pos) base "pos_payment" ∧
    reqSpecOk (query_request base uuid) base "query" ∧
    reqSpecOk (get_machine_info_request base) base "machine_info" ∧
    reqSpecOk (get_cash_info_request base) base "cash_info" ∧
    reqSpecOk (get_cash_detail_info_request base name) base "cash_detail_info" ∧
    reqSpecOk (refill_request base) base "refill" ∧
    reqSpecOk (refill_end_request base) base "refill_end" ∧
    reqSpecOk (refund_request base amount) base "refund" ∧
    reqSpecOk (withdraw_request base witems) base "withdraw" ∧
    reqSpecOk (cancel_request base) base "cancel" ∧
    reqSpecOk (payment_stop_request base) base "payment_stop" ∧
    reqSpecOk (payment_continue_request base) base "payment_continue" ∧
    reqSpecOk (get_sensor_status_request base) base "sensor_status" ∧
    reqSpecOk (get_cassette_status_request base) base "cassette_status" ∧
    reqSpecOk (get_status_request base) base "get_status" ∧
    reqSpecOk (reset_status_request base) base "reset_status" ∧
    reqSpecOk (get_error_message_request base ec) base "get_error_message" ∧
    reqSpecOk (pd_calibration_request base) base "pd_calibration" ∧
    reqSpecOk (reset_cassette_request base) base "reset_cassette" ∧
    reqSpecOk (reset_coin_box_request base) base "reset_coin_box" ∧
    reqSpecOk (clear_hopper_request base hop) base "clear_hopper" ∧
    reqSpecOk (drum_to_cassette_request base d p) base "drum_to_cassette" ∧
    reqSpecOk (get_banknote_denomination_setup_request base) base
      "banknote_denomination_setup_get" ∧
    reqSpecOk (get_coin_tube_setup_request base) base "coin_tube_setup_get" ∧
    reqSpecOk (set_device_setting_request base dev durl) base
      "set_device_setting" ∧
    reqSpecOk (setup_setting_request base nm v) base "setup_setting" ∧
    ((set_banknote_denomination_setup_request base bsettings).url =
        make_url base (endpointPath "banknote_denomination_setup_post") ∧
      (set_banknote_denomination_setup_request base bsettings).verb = .POST ∧
      (set_banknote_denomination_setup_request base bsettings).body =
        some (.arr bsettings)) ∧
    ((set_coin_tube_setup_request base csettings).url =
        make_url base (endpointPath "coin_tube_setup_post") ∧
      (set_coin_tube_setup_request base csettings).verb = .POST ∧
      (set_coin_tube_setup_request base csettings).body =
        some (.arr csettings)) ∧
    ((self_test_request base).url = make_url base (endpointPath "self_test") ∧
      (self_test_request base).verb = .GET ∧
      specVerbOf "self_test" = some .POST ∧
      bodyKeys (self_test_request base) = []) := by
  refine ⟨⟨rfl, rfl, mem_keys_pyMerge_right _ _ _, ?_⟩,
    ⟨rfl, rfl, rfl⟩, ⟨rfl, rfl, rfl⟩, ⟨rfl, rfl, rfl⟩, ⟨rfl, rfl, rfl⟩,
    ⟨rfl, rfl, rfl⟩, ⟨rfl, rfl, rfl⟩, ⟨rfl, rfl, rfl⟩, ⟨rfl, rfl, rfl⟩,
    ⟨rfl, rfl, rfl⟩, ⟨rfl, rfl, rfl⟩, ⟨rfl, rfl, rfl⟩, ⟨rfl, rfl, rfl⟩,
    ⟨rfl, rfl, rfl⟩, ⟨rfl, rfl, rfl⟩, ⟨rfl, rfl, rfl⟩, ⟨rfl, rfl, rfl⟩,
    ⟨rfl, rfl, rfl⟩, ⟨rfl, rfl, rfl⟩, ⟨rfl, rfl, rfl⟩, ⟨rfl, rfl, rfl⟩,
    ⟨rfl, rfl, rfl⟩, ⟨rfl, rfl, rfl⟩, ⟨rfl, rfl, rfl⟩, ⟨rfl, rfl, rfl⟩,
    ⟨rfl, rfl, rfl⟩, ⟨rfl, rfl, rfl⟩, ⟨rfl, rfl, rfl⟩, ⟨rfl, rfl, rfl⟩,
    ⟨rfl, rfl, rfl⟩, ⟨rfl, rfl, rfl⟩, ⟨rfl, rfl, rfl⟩, ⟨rfl, rfl, rfl⟩,
    ⟨rfl, rfl, rfl⟩, ⟨rfl, rfl, rfl, rfl⟩⟩
  intro k hk
  exact mem_keys_pyMerge_left _ _ _ hk

theorem C5_requests_match_contract_witness :
    reqSpecOk (login_request "http://localhost:8080" "admin" "pw")
      "http://localhost:8080" "login" ∧
    "Door1" ∈ bodyKeys (door_control_request "http://localhost:8080"
      [("Door1", Json.str "Open")] 10) := by
  have H := C5_requests_match_contract "http://localhost:8080" "admin" "pw"
    "500" "ref" "abc-123" "Drum1" "400" "dev1" "http://d" "volume"
    [] [] [] [] 1 1 1 1 10 [("Door1", Json.str "Open")]
  exact ⟨H.2.1, H.1.2.2.2 "Door1" (by simp)⟩


/-- C6: for every integer `drum_id` and `pcs` — the range `[1,4]` is nowhere
checked, so `drum_id = 5` included — `drum_to_cassette` sends the body
`drumId`/`pcs` unchanged, and the client returns any JSON-object envelope the
server answers, the code-509 error envelope included, verbatim. -/
theorem C6_drum_to_cassette_no_validation (base : String) (drum_id pcs : Int)
    (fields : List (String × Json)) (text : String) :
    drum_to_cassette_request base drum_id pcs =
      ⟨.POST, base ++ "/api/drumToCassette",
       some (.obj [("drumId", .num drum_id), ("pcs", .num pcs)])⟩ ∧
    drum_to_cassette_request base 5 1 =
      ⟨.POST, base ++ "/api/drumToCassette",
       some (.obj [("drumId", .num 5), ("pcs", .num 1)])⟩ ∧
    (run_call (.ok ⟨some (.obj fields), text⟩)).result = .ok (.obj fields) ∧
    (run_call (.ok ⟨some code509_envelope, text⟩)).result =
      .ok code509_envelope := by
  refine ⟨rfl, rfl, ?_, rfl⟩
  simp only [run_call, handle_response]
  split <;> rfl

/-- C8 counterexample: 402 lies in the range 400–515 but has no entry in the
error-code table. -/
theorem C8_counterexample :
    ((400:Int) ≤ 402 ∧ (402:Int) ≤ 515) ∧
    Config.ERROR_CODES.lookup (402:Int) = none := by
  exact ⟨by decide, rfl⟩

/-- C8 amended: the error-code table maps exactly the codes 400, 401 and
500–515 — not every code in 400–515 — each to a fixed non-empty message;
every code in 402–499 is unmapped. -/
theorem C8_error_code_table :
    Config.ERROR_CODES.map Prod.fst =
      [400, 401, 500, 501, 502, 503, 504, 505, 506, 507, 508, 509, 510,
       511, 512, 513, 514, 515] ∧
    Config.ERROR_CODES.all (fun q => q.2 != "") = true ∧
    (List.range 98).all
      (fun i => (Config.ERROR_CODES.lookup ((402:Int) + i)).isNone) = true := by
  refine ⟨rfl, rfl, ?_⟩
  decide

/-- C7: a transport failure — an exception raised before any response body
exists — propagates out of the client method unhandled (`run_call` yields the
exception itself), while a received body that is not valid JSON is caught and
normalized to the negative envelope instead of raising. -/
theorem C7_transport_failure_propagates (e : String) (text : String) :
    (run_call (.error e)).result = .error (.transport e) ∧
    (run_call (.ok ⟨none, text⟩)).result =
      .ok (.obj [("isSuccess", .bool false),
                 ("errorMsg", .str "応答の解析に失敗しました")]) := by
  exact ⟨rfl, rfl⟩

/-- C9 counterexample: the item list `[("apple", "x", "5")]` passes the
presence checks (all three fields non-empty), yet the displayed-total
computation raises `ValueError`: the filter guards only the price with
`isdigit`, and `int("x")` on the unguarded quantity fails. -/
theorem C9_counterexample :
    presence_ok ⟨"apple", "x", "5"⟩ = true ∧
    compute_total [⟨"apple", "x", "5"⟩] =
      .error "invalid literal for int() with base 10: x" := by
  exact ⟨rfl, rfl⟩

/-- C9 amended: the displayed total is the sum of quantity times unit price
over the items whose price string is all digits (a validation beyond the
presence checks); whenever every item with an all-digits price also has a
quantity string `int` accepts, the computation succeeds with that sum — but
it raises `ValueError` on an item with an all-digits price and a non-integer
quantity string, even though such an item passes the presence checks. -/
theorem C9_displayed_total (items : List Item)
    (h : items.all
      (fun it => !str_isdigit it.price || (py_int it.pcs).isSome) = true) :
    compute_total items = .ok (displayed_total items) := by
  induction items with
  | nil => rfl
  | cons it rest ih =>
      rw [List.all_cons, Bool.and_eq_true] at h
      obtain ⟨h1, h2⟩ := h
      by_cases hd : str_isdigit it.price = true
      · have hpcs : (py_int it.pcs).isSome = true := by simpa [hd] using h1
        obtain ⟨pq, hpq⟩ := Option.isSome_iff_exists.mp hpcs
        obtain ⟨pr, hpr⟩ := Option.isSome_iff_exists.mp
          (py_int_isSome_of_isdigit _ hd)
        simp [compute_total, hd, hpq, hpr, ih h2, displayed_total]
      · have hd2 : str_isdigit it.price = false := by simpa using hd
        simpa [compute_total, hd2, displayed_total] using ih h2

theorem C9_displayed_total_witness :
    ([(⟨"apple", "2", "30"⟩ : Item), ⟨"pen", "3", "9"⟩, ⟨"free", "4", ""⟩].all
      (fun it => !str_isdigit it.price || (py_int it.pcs).isSome) = true) ∧
    compute_total [⟨"apple", "2", "30"⟩, ⟨"pen", "3", "9"⟩, ⟨"free", "4", ""⟩] =
      .ok (displayed_total
        [⟨"apple", "2", "30"⟩, ⟨"pen", "3", "9"⟩, ⟨"free", "4", ""⟩]) :=
  ⟨by decide, C9_displayed_total
    [⟨"apple", "2", "30"⟩, ⟨"pen", "3", "9"⟩, ⟨"free", "4", ""⟩] (by decide)⟩

/-- C10: over every sequence of tracking actions the in-memory transaction
history keeps pairwise-distinct uuids, and a uuid already present in the
history leads to no API query and no append — `track_step` returns the
history unchanged with the issued-a-query flag false. -/
theorem C10_history_uuids_distinct
    (actions : List (String × String × Except PyErr Json))
    (history : List TransactionRecord) (u now : String)
    (qr : Except PyErr Json)
    (hmem : (history.map (fun t => t.uuid)).contains u = true) :
    ((run_tracking actions).map (fun t => t.uuid)).Nodup ∧
    track_step history u now qr = .ok (history, false) :=
  ⟨run_tracking_nodup_from actions [] (by simp),
   track_step_already_tracked history u now qr hmem⟩

theorem C10_history_uuids_distinct_witness :
    ((run_tracking
        [("abc", "t1", .ok (.obj [("isSuccess", .bool true)])),
         ("abc", "t2", .ok (.obj [("isSuccess", .bool true)]))]).map
      (fun t => t.uuid)).Nodup ∧
    track_step [⟨"abc", "t1", .str "paid", .num 100, .num 0, .obj []⟩]
        "abc" "t2" (.ok (.obj [])) =
      .ok ([⟨"abc", "t1", .str "paid", .num 100, .num 0, .obj []⟩], false) :=
  C10_history_uuids_distinct
    [("abc", "t1", .ok (.obj [("isSuccess", .bool true)])),
     ("abc", "t2", .ok (.obj [("isSuccess", .bool true)]))]
    [⟨"abc", "t1", .str "paid", .num 100, .num 0, .obj []⟩]
    "abc" "t2" (.ok (.obj [])) rfl

end CashPointPay
